import Mathlib

/-! Verification of the smart-store warehouse loader and OLAP layer.

Source files embedded below:
- scripts/etl_to_dw.py (schema creation, delete_existing_records,
  insert_customers / insert_products / insert_sales, load_data_to_db)
- scripts/OLAP/olap_cubing.py (create_sales_cube)
- scripts/OLAP/olap_goal_payment_method_insights.py and
  scripts/OLAP/olap_goal_top_category_by_region.py (filter_last_year_data,
  group_by_payment_type, get_top_categories_by_region)
- scripts/OLAP/olap_goal_drilldown_year_month.py (add_year_column,
  group_by_year, group_by_month)
- scripts/data_preparation/prepare_customers_data.py and
  prepare_sales_data.py (verify_columns)

Modelling conventions.  A pandas data frame is a column list, a parallel
dtype list, and rows of cells; a SQLite table is a schema (column list)
plus rows.  pandas DataFrame.to_sql on a raw sqlite3 connection commits
the connection transaction at the end of every successful call and rolls
it back on failure; load_data_to_db below makes these per-call commits
explicit, which is what decides the atomicity claims.  Dates and month
strings are represented by their numeric content (year, month, day). -/

namespace SmartStore

/-- A pandas/SQLite cell value.  A date-formatted string such as
2023-06-15 is represented by its year, month and day content. -/
inductive Cell where
  | intV (n : Int)
  | ratV (q : ℚ)
  | strV (s : String)
  | dateV (y m d : Nat)
  | nullV
deriving DecidableEq

/-- Decidable equality of Except results, used to evaluate the embedded
fallible operations on concrete inputs. -/
instance {ε α : Type} [DecidableEq ε] [DecidableEq α] : DecidableEq (Except ε α) := fun a b =>
  match a, b with
  | Except.error e, Except.error g =>
    match decEq e g with
    | isTrue h => isTrue (by rw [h])
    | isFalse h => isFalse (fun hh => h (by cases hh; rfl))
  | Except.ok x, Except.ok y =>
    match decEq x y with
    | isTrue h => isTrue (by rw [h])
    | isFalse h => isFalse (fun hh => h (by cases hh; rfl))
  | Except.error _, Except.ok _ => isFalse (fun hh => by cases hh)
  | Except.ok _, Except.error _ => isFalse (fun hh => by cases hh)

/-- A pandas data frame: human-authored column names, per-column dtype
names (as produced by pandas dtype inference), and rows of cells. -/
structure DataFrame where
  cols : List String
  dtypes : List String
  rows : List (List Cell)
deriving DecidableEq

/-- Index of a column name in a column list. -/
def idxOf? : List String → String → Option Nat
  | [], _ => none
  | c :: cs, x => if c = x then some 0 else (idxOf? cs x).map (· + 1)

/-- The dtype pandas reports for a column of the frame. -/
def DataFrame.dtypeOf (df : DataFrame) (c : String) : Option String :=
  match idxOf? df.cols c with
  | some i => df.dtypes.get? i
  | none => none

/-- verify_columns from scripts/data_preparation/prepare_customers_data.py
(and the identical copy in prepare_sales_data.py): first an exact
column-set comparison, then a per-column dtype comparison; any violation
is logged per column and makes the function return false. -/
def verify_columns (df : DataFrame) (expected : List (String × String)) : Bool :=
  if (expected.map Prod.fst).all (fun c => decide (c ∈ df.cols)) &&
      df.cols.all (fun c => decide (c ∈ expected.map Prod.fst)) then
    expected.all (fun p => decide (df.dtypeOf p.1 = some p.2))
  else
    false

/-- DataFrame.rename with a columns mapping: a pure renaming of column
names, values untouched; names absent from the mapping are kept. -/
def renameCol (m : List (String × String)) (c : String) : String :=
  match m.find? (fun p => p.1 == c) with
  | some p => p.2
  | none => c

/-- The renamed frame (pandas DataFrame.rename). -/
def DataFrame.rename (df : DataFrame) (m : List (String × String)) : DataFrame :=
  { df with cols := df.cols.map (renameCol m) }

/-- A SQLite table: declared column list plus committed rows. -/
structure Table where
  schema : List String
  rows : List (List Cell)
deriving DecidableEq

/-- The cell a row holds for a named column, NULL when the column is
absent from the column list. -/
def cellAt (cols : List String) (row : List Cell) (c : String) : Cell :=
  match idxOf? cols c with
  | some i => row.getD i Cell.nullV
  | none => Cell.nullV

/-- pandas DataFrame.to_sql with if_exists="append" on a sqlite3
connection: the generated INSERT statement names exactly the frame
columns, so the call fails when some frame column is not a table column,
and table columns the frame does not provide are filled with NULL.  On
success pandas commits the connection transaction; on failure it rolls
the transaction back.  The commit/rollback effect is modelled at the
call sites in load_data_to_db. -/
def Table.appendDf (t : Table) (df : DataFrame) : Option Table :=
  if df.cols.all (fun c => decide (c ∈ t.schema)) then
    some { t with rows :=
      t.rows ++ df.rows.map (fun r => t.schema.map (fun c => cellAt df.cols r c)) }
  else
    none

/-- Modelled from the spec: the schema definition file sql/dw_tables.sql
is not under src (only its caller create_schema_from_file is).  Per spec
sections 4.2 and 6 the warehouse holds exactly the relations customers,
products and sales with the snake-case columns targeted by the rename
maps of etl_to_dw.py; no further column constraints are stated, so none
are modelled.  Column list of the customers relation. -/
def customersSchema : List String :=
  ["customer_id", "name", "region", "join_date", "loyalty_points",
   "preferred_contact_method"]

/-- Modelled from the spec: column list of the products relation (see
customersSchema). -/
def productsSchema : List String :=
  ["product_id", "product_name", "category", "unit_price", "stock_quantity",
   "supplier"]

/-- Modelled from the spec: column list of the sales relation (see
customersSchema). -/
def salesSchema : List String :=
  ["transaction_id", "sale_date", "customer_id", "product_id", "store_id",
   "campaign_id", "sale_amount", "discount_percent", "payment_type"]

/-- Rename map used by insert_customers in scripts/etl_to_dw.py. -/
def customerRename : List (String × String) :=
  [("CustomerID", "customer_id"), ("Name", "name"), ("Region", "region"),
   ("JoinDate", "join_date"), ("LoyaltyPoints", "loyalty_points"),
   ("PreferredContactMethod", "preferred_contact_method")]

/-- Rename map used by insert_products in scripts/etl_to_dw.py. -/
def productRename : List (String × String) :=
  [("ProductID", "product_id"), ("ProductName", "product_name"),
   ("Category", "category"), ("UnitPrice", "unit_price"),
   ("StockQuantity", "stock_quantity"), ("Supplier", "supplier")]

/-- Rename map used by insert_sales in scripts/etl_to_dw.py. -/
def salesRename : List (String × String) :=
  [("TransactionID", "transaction_id"), ("SaleDate", "sale_date"),
   ("CustomerID", "customer_id"), ("ProductID", "product_id"),
   ("StoreID", "store_id"), ("CampaignID", "campaign_id"),
   ("SaleAmount", "sale_amount"), ("DiscountPercent", "discount_percent"),
   ("PaymentType", "payment_type")]

/-- The committed state of the warehouse database file: its three
relations. -/
structure DWState where
  customers : Table
  products : Table
  sales : Table
deriving DecidableEq

/-- One table with all rows deleted (DELETE FROM, uncommitted until the
next commit on the connection). -/
def clearRows (t : Table) : Table :=
  { t with rows := [] }

/-- delete_existing_records from scripts/etl_to_dw.py: DELETE FROM
customers, products and sales on the open transaction. -/
def delete_existing_records (st : DWState) : DWState :=
  { customers := clearRows st.customers, products := clearRows st.products,
    sales := clearRows st.sales }

/-- insert_customers from scripts/etl_to_dw.py: rename the human-authored
columns to the warehouse names, then to_sql append into customers. -/
def insert_customers (df : DataFrame) (t : Table) : Option Table :=
  t.appendDf (df.rename customerRename)

/-- insert_products from scripts/etl_to_dw.py. -/
def insert_products (df : DataFrame) (t : Table) : Option Table :=
  t.appendDf (df.rename productRename)

/-- insert_sales from scripts/etl_to_dw.py. -/
def insert_sales (df : DataFrame) (t : Table) : Option Table :=
  t.appendDf (df.rename salesRename)

/-- The external inputs of one load_data_to_db run: whether the schema
file sql/dw_tables.sql exists, and the three prepared csv files (none
models a missing file, read_csv then raises). -/
structure EtlInputs where
  sqlFile : Bool
  customersCsv : Option DataFrame
  productsCsv : Option DataFrame
  salesCsv : Option DataFrame

/-- load_data_to_db from scripts/etl_to_dw.py.  Returns the committed
state of the database file after the call together with the error text
printed by the top-level except branch (none on success).  The control
flow follows the source: create schema (raises when the sql file is
missing, nothing committed yet), DELETE the three tables on the open
transaction, read the three prepared csv files (raises when one is
missing, the uncommitted deletes are discarded when the connection
closes), then insert customers, products, sales via to_sql.  Each
successful to_sql call commits the connection transaction, so the first
one also commits the deletes; a failing to_sql call rolls the open
transaction back and the raised error is caught and printed, leaving
whatever earlier calls committed. -/
def load_data_to_db (init : DWState) (inp : EtlInputs) : DWState × Option String :=
  if inp.sqlFile = false then
    (init, some ("Error during ETL process: SQL file not found"))
  else
    match inp.customersCsv, inp.productsCsv, inp.salesCsv with
    | some cdf, some pdf, some sdf =>
      let cleared := delete_existing_records init
      match insert_customers cdf cleared.customers with
      | none => (init, some ("Error during ETL process: customers insert failed"))
      | some tc =>
        match insert_products pdf cleared.products with
        | none =>
          ({ customers := tc, products := cleared.products, sales := cleared.sales },
           some ("Error during ETL process: products insert failed"))
        | some tp =>
          match insert_sales sdf cleared.sales with
          | none =>
            ({ customers := tc, products := tp, sales := cleared.sales },
             some ("Error during ETL process: sales insert failed"))
          | some ts =>
            ({ customers := tc, products := tp, sales := ts }, none)
    | _, _, _ => (init, some ("Error during ETL process: prepared csv file not found"))

/-- Row counts per relation, the observable load report. -/
def rowCounts (st : DWState) : Nat × Nat × Nat :=
  (st.customers.rows.length, st.products.rows.length, st.sales.rows.length)

/-! Typed view of the warehouse relations, used by the cube query of
scripts/OLAP/olap_cubing.py. -/

/-- A calendar date as stored in the sale_date and join_date columns. -/
structure Date where
  y : Nat
  m : Nat
  d : Nat
deriving DecidableEq

/-- The strftime month bucket of a date, as a month index
(year * 12 + month - 1), the order-faithful encoding of the string
produced by strftime with format %Y-%m. -/
def ym (dt : Date) : Int :=
  (dt.y : Int) * 12 + (dt.m : Int) - 1

/-- A row of the customers relation. -/
structure CustomerR where
  customer_id : Int
  name : String
  region : String
  join_date : Date
  loyalty_points : Int
  preferred_contact_method : String
deriving DecidableEq

/-- A row of the products relation. -/
structure ProductR where
  product_id : Int
  product_name : String
  category : String
  unit_price : ℚ
  stock_quantity : Int
  supplier : String
deriving DecidableEq

/-- A row of the sales relation (the fact table). -/
structure SaleR where
  transaction_id : Int
  sale_date : Date
  customer_id : Int
  product_id : Int
  store_id : Int
  campaign_id : Int
  sale_amount : ℚ
  discount_percent : Int
  payment_type : String
deriving DecidableEq

/-- The warehouse contents seen through the declared column types. -/
structure TypedState where
  customers : List CustomerR
  products : List ProductR
  sales : List SaleR
deriving DecidableEq

/-- One row of the join in the cube query of olap_cubing.py, before
grouping. -/
structure JRow where
  month : Int
  region : String
  product_category : String
  payment_type : String
  sale_amount : ℚ
deriving DecidableEq

/-- One output row of the cube query: the csv columns month, region,
product_category, payment_type, total_sales, transaction_count. -/
structure CubeOut where
  month : Int
  region : String
  product_category : String
  payment_type : String
  total_sales : ℚ
  transaction_count : Nat
deriving DecidableEq

/-- The grouping key of the cube query. -/
def jkey (j : JRow) : Int × String × String × String :=
  (j.month, j.region, j.product_category, j.payment_type)

/-- The dimension tuple of a cube row. -/
def cubeKey (r : CubeOut) : Int × String × String × String :=
  (r.month, r.region, r.product_category, r.payment_type)

/-- The join partners one fact row contributes: every matching customer
paired with every matching product, projected onto the selected
columns. -/
def salesJoin (st : TypedState) (s : SaleR) : List JRow :=
  ((st.customers.filter (fun c => decide (c.customer_id = s.customer_id))).map
    (fun c =>
      (st.products.filter (fun p => decide (p.product_id = s.product_id))).map
        (fun p =>
          { month := ym s.sale_date, region := c.region,
            product_category := p.category, payment_type := s.payment_type,
            sale_amount := s.sale_amount : JRow }))).flatten

/-- FROM sales s JOIN customers c ON s.customer_id = c.customer_id JOIN
products p ON s.product_id = p.product_id, projected onto the selected
columns: inner join semantics, a fact row with no matching dimension row
produces nothing. -/
def joinedRows (st : TypedState) : List JRow :=
  (st.sales.map (salesJoin st)).flatten

/-- The joined rows with a given dimension tuple. -/
def fiber (j : List JRow) (k : Int × String × String × String) : List JRow :=
  j.filter (fun a => decide (jkey a = k))

/-- GROUP BY month, region, category, payment_type with SUM(sale_amount)
and COUNT(*): one output row per distinct key of the joined data. -/
def cubeQuery (st : TypedState) : List CubeOut :=
  (((joinedRows st).map jkey).dedup).map (fun k =>
    { month := k.1, region := k.2.1, product_category := k.2.2.1,
      payment_type := k.2.2.2,
      total_sales := ((fiber (joinedRows st) k).map JRow.sale_amount).sum,
      transaction_count := (fiber (joinedRows st) k).length })

/-- Whether a fact row has a matching customers row. -/
def hasCust (st : TypedState) (s : SaleR) : Bool :=
  st.customers.any (fun c => decide (c.customer_id = s.customer_id))

/-- Whether a fact row has a matching products row. -/
def hasProd (st : TypedState) (s : SaleR) : Bool :=
  st.products.any (fun p => decide (p.product_id = s.product_id))

/-- The fact rows that join to both a matching customer and a matching
product row. -/
def matchedSales (st : TypedState) : List SaleR :=
  st.sales.filter (fun s => hasCust st s && hasProd st s)

/-- create_sales_cube from scripts/OLAP/olap_cubing.py: error when the
database file does not exist (none), otherwise run the aggregation query
and return its rows (which the script then writes to the cube csv).
There is no emptiness check on the sales table anywhere in the
function. -/
def create_sales_cube (db : Option TypedState) : Except String (List CubeOut) :=
  match db with
  | none => Except.error ("Database file not found at data/dw/smart_sales.db")
  | some st => Except.ok (cubeQuery st)

/-- Interpretation of a committed cell as an integer key. -/
def cellInt : Cell → Int
  | .intV n => n
  | _ => 0

/-- Interpretation of a committed cell as a numeric amount. -/
def cellQ : Cell → ℚ
  | .ratV q => q
  | .intV n => (n : ℚ)
  | _ => 0

/-- Interpretation of a committed cell as text. -/
def cellStr : Cell → String
  | .strV s => s
  | _ => ""

/-- Interpretation of a committed cell as a date. -/
def cellDate : Cell → Date
  | .dateV y m d => { y := y, m := m, d := d }
  | _ => { y := 0, m := 0, d := 0 }

/-- The typed view of a committed warehouse state: each relation read
back through its declared columns. -/
def interpState (st : DWState) : TypedState :=
  { customers := st.customers.rows.map (fun r =>
      { customer_id := cellInt (cellAt st.customers.schema r ("customer_id")),
        name := cellStr (cellAt st.customers.schema r ("name")),
        region := cellStr (cellAt st.customers.schema r ("region")),
        join_date := cellDate (cellAt st.customers.schema r ("join_date")),
        loyalty_points := cellInt (cellAt st.customers.schema r ("loyalty_points")),
        preferred_contact_method :=
          cellStr (cellAt st.customers.schema r ("preferred_contact_method")) }),
    products := st.products.rows.map (fun r =>
      { product_id := cellInt (cellAt st.products.schema r ("product_id")),
        product_name := cellStr (cellAt st.products.schema r ("product_name")),
        category := cellStr (cellAt st.products.schema r ("category")),
        unit_price := cellQ (cellAt st.products.schema r ("unit_price")),
        stock_quantity := cellInt (cellAt st.products.schema r ("stock_quantity")),
        supplier := cellStr (cellAt st.products.schema r ("supplier")) }),
    sales := st.sales.rows.map (fun r =>
      { transaction_id := cellInt (cellAt st.sales.schema r ("transaction_id")),
        sale_date := cellDate (cellAt st.sales.schema r ("sale_date")),
        customer_id := cellInt (cellAt st.sales.schema r ("customer_id")),
        product_id := cellInt (cellAt st.sales.schema r ("product_id")),
        store_id := cellInt (cellAt st.sales.schema r ("store_id")),
        campaign_id := cellInt (cellAt st.sales.schema r ("campaign_id")),
        sale_amount := cellQ (cellAt st.sales.schema r ("sale_amount")),
        discount_percent := cellInt (cellAt st.sales.schema r ("discount_percent")),
        payment_type := cellStr (cellAt st.sales.schema r ("payment_type")) }) }

/-! The rollup layer over the materialized cube csv. -/

/-- The month column value of a cube row as loaded by the rollup
scripts: raw is the csv string of shape YYYY-MM (object dtype,
represented by its year and month content), parsed is the pandas
Timestamp produced by pd.to_datetime, as a month index. -/
inductive MonthVal where
  | raw (y m : Nat)
  | parsed (idx : Int)
deriving DecidableEq

/-- Month index of a year/month pair: the number of months since the
calendar origin, the order-faithful encoding of the first-of-month
Timestamp pd.to_datetime produces for a YYYY-MM string. -/
def toIdx (y m : Nat) : Int :=
  (y : Int) * 12 + (m : Int) - 1

/-- pd.to_datetime on one month value: parses a raw YYYY-MM string
(failing on an impossible month), leaves an already-parsed Timestamp
unchanged. -/
def toDatetime : MonthVal → Option MonthVal
  | .raw y m => if 1 ≤ m ∧ m ≤ 12 then some (.parsed (toIdx y m)) else none
  | .parsed i => some (.parsed i)

/-- The month index a month value denotes. -/
def monthIdx : MonthVal → Int
  | .raw y m => toIdx y m
  | .parsed i => i

/-- One row of the cube csv as the rollup scripts see it; year is the
extra column add_year_column writes (absent before). -/
structure CubeRd where
  month : MonthVal
  region : String
  product_category : String
  payment_type : String
  total_sales : ℚ
  transaction_count : Int
  year : Option Int := none
deriving DecidableEq

/-- The in-place column assignment
cube_data month = pd.to_datetime(cube_data month): every month value of
the frame is parsed; any parse failure raises out of the assignment. -/
def parseMonths : List CubeRd → Option (List CubeRd)
  | [] => some []
  | r :: rest =>
    match toDatetime r.month, parseMonths rest with
    | some mv, some rest2 => some ({ r with month := mv } :: rest2)
    | _, _ => none

/-- Maximum of a list in a linear order, none when empty (the pandas
Series.max of the column). -/
def listMax {α : Type} [LinearOrder α] : List α → Option α
  | [] => none
  | a :: l =>
    match listMax l with
    | none => some a
    | some b => some (max a b)

/-- The latest month present in a cube frame (pandas max of the month
column); 0 as the irrelevant default for an empty frame. -/
def latestMonth (l : List CubeRd) : Int :=
  (listMax (l.map (fun r => monthIdx r.month))).getD 0

/-- filter_last_year_data, the identical helper of
olap_goal_payment_method_insights.py, olap_goal_top_category_by_region.py
and olap_goal_sales_by_product_category.py: converts the month column of
the input frame in place with pd.to_datetime, computes the latest month
minus pd.DateOffset of one year (minus 12 on month indices, first-of-month
Timestamps), and returns the rows strictly greater.  The result pairs the
post-call state of the caller frame (mutated in place) with the returned
filtered frame; a parse failure is logged and re-raised. -/
def filter_last_year_data (cube : List CubeRd) :
    Except String (List CubeRd × List CubeRd) :=
  match parseMonths cube with
  | none => Except.error ("Error while filtering data")
  | some cube2 =>
    Except.ok (cube2, cube2.filter (fun r => decide (latestMonth cube2 - 12 < monthIdx r.month)))

/-- The year of a month index (the dt.year accessor). -/
def yearOf (i : Int) : Int :=
  Int.ediv i 12

/-- add_year_column from scripts/OLAP/olap_goal_drilldown_year_month.py:
converts the month column in place, writes the year column, and returns
the same (mutated) frame. -/
def add_year_column (cube : List CubeRd) : Except String (List CubeRd) :=
  match parseMonths cube with
  | none => Except.error ("Error while adding year column")
  | some cube2 =>
    Except.ok (cube2.map (fun r => { r with year := some (yearOf (monthIdx r.month)) }))

/-- Code-point comparison of character lists, the string order pandas
sorts by. -/
def strLtAux : List Char → List Char → Bool
  | [], [] => false
  | [], _ :: _ => true
  | _ :: _, [] => false
  | a :: as, b :: bs =>
    if a.toNat < b.toNat then true
    else if b.toNat < a.toNat then false
    else strLtAux as bs

/-- Strict lexicographic string comparison. -/
def strLtB (a b : String) : Bool :=
  strLtAux a.data b.data

/-- Reflexive lexicographic string comparison. -/
def strLeB (a b : String) : Bool :=
  strLtB a b || a == b

/-- Lexicographic comparison of (region, category) pairs, the key order
of pandas groupby with two keys. -/
def pairLeB (x y : String × String) : Bool :=
  strLtB x.1 y.1 || (x.1 == y.1 && strLeB x.2 y.2)

/-- Insertion into a sorted list. -/
def insertSorted {α : Type} (le : α → α → Bool) (x : α) : List α → List α
  | [] => [x]
  | y :: ys => if le x y then x :: y :: ys else y :: insertSorted le x ys

/-- Insertion sort, the key ordering step of pandas groupby
(sort enabled by default). -/
def sortByB {α : Type} (le : α → α → Bool) : List α → List α
  | [] => []
  | x :: xs => insertSorted le x (sortByB le xs)

/-- The (region, product_category) key of a cube row. -/
def pairKey (r : CubeRd) : String × String :=
  (r.region, r.product_category)

/-- groupby(region, product_category).agg(total_sales sum).reset_index()
from get_top_categories_by_region: one row per distinct key, keys in
sorted order, each with the summed total. -/
def groupPairs (rows : List CubeRd) : List ((String × String) × ℚ) :=
  (sortByB pairLeB ((rows.map pairKey).dedup)).map (fun k =>
    (k, ((rows.filter (fun r => decide (pairKey r = k))).map
      (fun r => r.total_sales)).sum))

/-- The grouped rows of one region, in grouped order. -/
def regionGroup (grouped : List ((String × String) × ℚ)) (rg : String) :
    List ((String × String) × ℚ) :=
  grouped.filter (fun e => decide (e.1.1 = rg))

/-- grouped.groupby(region).idxmax() applied to one region: the first
row of the region group whose total equals the group maximum (idxmax
returns the first maximal label). -/
def topPick (grouped : List ((String × String) × ℚ)) (rg : String) :
    Option (String × String × ℚ) :=
  ((regionGroup grouped rg).find? (fun e =>
    decide (e.2 = (listMax ((regionGroup grouped rg).map (fun e => e.2))).getD 0))).map
    (fun e => (e.1.1, e.1.2, e.2))

/-- get_top_categories_by_region from
scripts/OLAP/olap_goal_top_category_by_region.py: group by
(region, product_category) with summed total_sales, then select per
region the row grouped.loc of groupby(region).idxmax(), in region
order. -/
def get_top_categories_by_region (filtered : List CubeRd) :
    List (String × String × ℚ) :=
  (((groupPairs filtered).map (fun e => e.1.1)).dedup).filterMap
    (topPick (groupPairs filtered))

/-- group_by_payment_type from olap_goal_payment_method_insights.py:
aggregate total_sales and transaction_count grouped by payment type,
keys in sorted order. -/
def group_by_payment_type (filtered : List CubeRd) :
    List (String × ℚ × Int) :=
  (sortByB strLeB ((filtered.map (fun r => r.payment_type)).dedup)).map (fun k =>
    (k, (((filtered.filter (fun r => r.payment_type == k)).map
            (fun r => r.total_sales)).sum,
         ((filtered.filter (fun r => r.payment_type == k)).map
            (fun r => r.transaction_count)).sum)))

/-- group_by_year from olap_goal_drilldown_year_month.py: total sales
grouped by the year column. -/
def group_by_year (cube : List CubeRd) : List (Int × ℚ) :=
  (sortByB (fun a b => decide (a ≤ b)) ((cube.map (fun r => r.year.getD 0)).dedup)).map
    (fun k => (k, ((cube.filter (fun r => r.year.getD 0 == k)).map
      (fun r => r.total_sales)).sum))

/-- group_by_month from olap_goal_drilldown_year_month.py: total sales
grouped by the month column (calendar order, month indices being
calendar-ordered). -/
def group_by_month (cube : List CubeRd) : List (Int × ℚ) :=
  (sortByB (fun a b => decide (a ≤ b)) ((cube.map (fun r => monthIdx r.month)).dedup)).map
    (fun k => (k, ((cube.filter (fun r => monthIdx r.month == k)).map
      (fun r => r.total_sales)).sum))

/-! Concrete inputs used by counterexamples and witnesses. -/

/-- The provisioned, empty warehouse. -/
def dwEmpty : DWState :=
  { customers := { schema := customersSchema, rows := [] },
    products := { schema := productsSchema, rows := [] },
    sales := { schema := salesSchema, rows := [] } }

/-- A prepared customers frame that is missing the Region column. -/
def dfNoRegion : DataFrame :=
  { cols := ["CustomerID", "Name", "JoinDate", "LoyaltyPoints",
             "PreferredContactMethod"],
    dtypes := ["int64", "object", "datetime64[ns]", "int64", "object"],
    rows := [[Cell.intV 7, Cell.strV ("Alice"), Cell.dateV 2020 1 1,
              Cell.intV 80, Cell.strV ("Email")]] }

/-- The expected_columns contract of the customers dataset, from
prepare_customers_data.py. -/
def customersExpected : List (String × String) :=
  [("CustomerID", "int64"), ("Name", "object"), ("Region", "object"),
   ("JoinDate", "datetime64[ns]"), ("LoyaltyPoints", "int64"),
   ("PreferredContactMethod", "object")]

/-- A well-formed products frame with no rows. -/
def pdfEmpty : DataFrame :=
  { cols := ["ProductID", "ProductName", "Category", "UnitPrice",
             "StockQuantity", "Supplier"],
    dtypes := ["int64", "object", "object", "float64", "int64", "object"],
    rows := [] }

/-- A well-formed sales frame with no rows. -/
def sdfEmpty : DataFrame :=
  { cols := ["TransactionID", "SaleDate", "ProductID", "StoreID", "CustomerID",
             "CampaignID", "SaleAmount", "DiscountPercent", "PaymentType"],
    dtypes := ["int64", "datetime64[ns]", "int64", "int64", "int64", "int64",
               "float64", "int64", "object"],
    rows := [] }

/-- The warehouse state after loading dfNoRegion: one customer row was
written, with NULL in the region column. -/
def c1FinalState : DWState :=
  { customers :=
      { schema := customersSchema,
        rows := [[Cell.intV 7, Cell.strV ("Alice"), Cell.nullV,
                  Cell.dateV 2020 1 1, Cell.intV 80, Cell.strV ("Email")]] },
    products := { schema := productsSchema, rows := [] },
    sales := { schema := salesSchema, rows := [] } }

/-- A warehouse holding one prior sales row (pre-load state for the
atomicity counterexample). -/
def initC2 : DWState :=
  { customers := { schema := customersSchema, rows := [] },
    products := { schema := productsSchema, rows := [] },
    sales :=
      { schema := salesSchema,
        rows := [[Cell.intV 1, Cell.dateV 2024 1 1, Cell.intV 1, Cell.intV 1,
                  Cell.intV 1, Cell.intV 1, Cell.intV 100, Cell.intV 0,
                  Cell.strV ("Card")]] } }

/-- A well-formed customers frame with a single row. -/
def cdfOne : DataFrame :=
  { cols := ["CustomerID", "Name", "Region", "JoinDate", "LoyaltyPoints",
             "PreferredContactMethod"],
    dtypes := ["int64", "object", "object", "datetime64[ns]", "int64",
               "object"],
    rows := [[Cell.intV 1, Cell.strV ("Bob"), Cell.strV ("South"),
              Cell.dateV 2021 2 3, Cell.intV 90, Cell.strV ("Phone")]] }

/-- A well-formed products frame with a single row. -/
def pdfOne : DataFrame :=
  { cols := ["ProductID", "ProductName", "Category", "UnitPrice",
             "StockQuantity", "Supplier"],
    dtypes := ["int64", "object", "object", "float64", "int64", "object"],
    rows := [[Cell.intV 1, Cell.strV ("Widget"), Cell.strV ("Gadgets"),
              Cell.intV 10, Cell.intV 5, Cell.strV ("Acme")]] }

/-- A sales frame with an extra unknown column, a realistic to_sql
failure (the generated insert names a column the sales table does not
have). -/
def sdfExtra : DataFrame :=
  { cols := ["TransactionID", "SaleDate", "ProductID", "StoreID", "CustomerID",
             "CampaignID", "SaleAmount", "DiscountPercent", "PaymentType",
             "Extra"],
    dtypes := ["int64", "datetime64[ns]", "int64", "int64", "int64", "int64",
               "float64", "int64", "object", "object"],
    rows := [[Cell.intV 2, Cell.dateV 2024 2 2, Cell.intV 1, Cell.intV 1,
              Cell.intV 1, Cell.intV 1, Cell.intV 50, Cell.intV 0,
              Cell.strV ("Cash"), Cell.intV 0]] }

/-- The committed warehouse after the failing load of the atomicity
counterexample: new customers and products committed, sales empty. -/
def c2FinalState : DWState :=
  { customers :=
      { schema := customersSchema,
        rows := [[Cell.intV 1, Cell.strV ("Bob"), Cell.strV ("South"),
                  Cell.dateV 2021 2 3, Cell.intV 90, Cell.strV ("Phone")]] },
    products :=
      { schema := productsSchema,
        rows := [[Cell.intV 1, Cell.strV ("Widget"), Cell.strV ("Gadgets"),
                  Cell.intV 10, Cell.intV 5, Cell.strV ("Acme")]] },
    sales := { schema := salesSchema, rows := [] } }

/-- A warehouse with dimension rows but an empty fact table. -/
def stEmptyFacts : TypedState :=
  { customers := [{ customer_id := 1, name := "Alice", region := "North",
                    join_date := { y := 2020, m := 1, d := 1 },
                    loyalty_points := 80,
                    preferred_contact_method := "Email" }],
    products := [{ product_id := 1, product_name := "Widget",
                   category := "Gadgets", unit_price := 10,
                   stock_quantity := 5, supplier := "Acme" }],
    sales := [] }

/-- A small populated warehouse: one customer, one product, one fact row
that joins and one dangling fact row (customer reference 99). -/
def stSmall : TypedState :=
  { customers := [{ customer_id := 1, name := "Alice", region := "North",
                    join_date := { y := 2020, m := 1, d := 1 },
                    loyalty_points := 80,
                    preferred_contact_method := "Email" }],
    products := [{ product_id := 1, product_name := "Widget",
                   category := "Gadgets", unit_price := 10,
                   stock_quantity := 5, supplier := "Acme" }],
    sales := [{ transaction_id := 1, sale_date := { y := 2024, m := 5, d := 10 },
                customer_id := 1, product_id := 1, store_id := 1,
                campaign_id := 1, sale_amount := 100, discount_percent := 0,
                payment_type := "Card" },
              { transaction_id := 2, sale_date := { y := 2024, m := 5, d := 11 },
                customer_id := 99, product_id := 1, store_id := 1,
                campaign_id := 1, sale_amount := 50, discount_percent := 0,
                payment_type := "Cash" }] }

/-- A cube row with a raw YYYY-MM month string. -/
def mkRowRaw (y m : Nat) : CubeRd :=
  { month := MonthVal.raw y m, region := "R", product_category := "C",
    payment_type := "Card", total_sales := 1, transaction_count := 1 }

/-- The same cube row after the in-place pd.to_datetime conversion. -/
def mkRowP (y m : Nat) : CubeRd :=
  { month := MonthVal.parsed (toIdx y m), region := "R",
    product_category := "C", payment_type := "Card", total_sales := 1,
    transaction_count := 1 }

/-- The months 2023-01 through 2024-06. -/
def months1823 : List (Nat × Nat) :=
  [(2023, 1), (2023, 2), (2023, 3), (2023, 4), (2023, 5), (2023, 6),
   (2023, 7), (2023, 8), (2023, 9), (2023, 10), (2023, 11), (2023, 12),
   (2024, 1), (2024, 2), (2024, 3), (2024, 4), (2024, 5), (2024, 6)]

/-- The months 2023-07 through 2024-06 (the trailing 12). -/
def monthsKept : List (Nat × Nat) :=
  [(2023, 7), (2023, 8), (2023, 9), (2023, 10), (2023, 11), (2023, 12),
   (2024, 1), (2024, 2), (2024, 3), (2024, 4), (2024, 5), (2024, 6)]

/-- A cube frame with one row per month 2023-01 … 2024-06, raw months. -/
def exCubeYear : List CubeRd :=
  months1823.map (fun p => mkRowRaw p.1 p.2)

/-- The same frame after the in-place month conversion. -/
def exCubeYearP : List CubeRd :=
  months1823.map (fun p => mkRowP p.1 p.2)

/-- The rows the recency filter keeps: months 2023-07 … 2024-06. -/
def exCubeYearKept : List CubeRd :=
  monthsKept.map (fun p => mkRowP p.1 p.2)

/-- A one-row cube frame with a raw month, for the mutation
counterexample. -/
def exRawOne : List CubeRd :=
  [mkRowRaw 2024 6]

/-- The same frame after filter_last_year_data ran: month converted in
place. -/
def exParsedOne : List CubeRd :=
  [mkRowP 2024 6]

/-- A cube row for the top-category example. -/
def mkTopRow (r c : String) (t : ℚ) : CubeRd :=
  { month := MonthVal.parsed 0, region := r, product_category := c,
    payment_type := "Card", total_sales := t, transaction_count := 1 }

/-- The rows of the top-category-per-region example of the spec. -/
def exTopRows : List CubeRd :=
  [mkTopRow ("RegionA") "Cat1" 100, mkTopRow ("RegionA") "Cat2" 150,
   mkTopRow ("RegionB") "Cat1" 80]

/-- A two-month cube frame with raw months, for the recency witness. -/
def exCubeTwo : List CubeRd :=
  [mkRowRaw 2024 5, mkRowRaw 2024 6]

/-- The same frame parsed. -/
def exCubeTwoP : List CubeRd :=
  [mkRowP 2024 5, mkRowP 2024 6]

/-! General list lemmas used by the aggregation proofs. -/

theorem map_congr_own {α β : Type} (f g : α → β) (l : List α)
    (h : ∀ a ∈ l, f a = g a) : l.map f = l.map g := by
  induction l with
  | nil => rfl
  | cons a t ih =>
    simp only [List.map_cons]
    rw [h a (List.mem_cons_self a t), ih (fun x hx => h x (List.mem_cons_of_mem a hx))]

theorem filter_all_false {α : Type} (p : α → Bool) (l : List α)
    (h : ∀ a ∈ l, p a = false) : l.filter p = [] := by
  induction l with
  | nil => rfl
  | cons a t ih =>
    rw [List.filter_cons, h a (List.mem_cons_self a t)]
    exact ih (fun x hx => h x (List.mem_cons_of_mem a hx))

theorem filter_sub_filter {α : Type} (p q : α → Bool) (l : List α)
    (h : ∀ a ∈ l, q a = true → p a = true) :
    (l.filter p).filter q = l.filter q := by
  induction l with
  | nil => rfl
  | cons a t ih =>
    have ih2 := ih (fun x hx => h x (List.mem_cons_of_mem a hx))
    by_cases hq : q a = true
    · have hp : p a = true := h a (List.mem_cons_self a t) hq
      simp [List.filter_cons, hp, hq, ih2]
    · have hq2 : q a = false := by
        cases hqa : q a
        · rfl
        · exact absurd hqa hq
      cases hp : p a <;> simp [List.filter_cons, hp, hq2, ih2]

theorem sum_map_flatten {α β M : Type} [AddCommMonoid M] (F : α → List β)
    (f : β → M) (l : List α) :
    (((l.map F).flatten).map f).sum = (l.map (fun a => ((F a).map f).sum)).sum := by
  induction l with
  | nil => rfl
  | cons a t ih =>
    simp only [List.map_cons, List.flatten_cons, List.map_append,
      List.sum_append, List.sum_cons, ih]

theorem length_flatten_map {α β : Type} (F : α → List β) (l : List α) :
    ((l.map F).flatten).length = (l.map (fun a => (F a).length)).sum := by
  induction l with
  | nil => rfl
  | cons a t ih => simp [ih]

theorem sum_map_filterB {α M : Type} [AddCommMonoid M] (q : α → Bool)
    (f : α → M) (l : List α) :
    ((l.filter q).map f).sum
      = (l.map (fun a => if q a = true then f a else 0)).sum := by
  induction l with
  | nil => rfl
  | cons a t ih => cases h : q a <;> simp [List.filter_cons, h, ih]

theorem length_filterB {α : Type} (q : α → Bool) (l : List α) :
    (l.filter q).length
      = (l.map (fun a => if q a = true then (1 : ℕ) else 0)).sum := by
  induction l with
  | nil => rfl
  | cons a t ih =>
    cases h : q a <;> simp [List.filter_cons, h, ih, Nat.add_comm]

theorem sum_map_ones {α : Type} (l : List α) :
    (l.map (fun _ => (1 : ℕ))).sum = l.length := by
  induction l with
  | nil => rfl
  | cons a t ih => simp [ih, Nat.add_comm]

theorem sum_map_filter_split {α M : Type} [AddCommMonoid M] (p : α → Bool)
    (f : α → M) (l : List α) :
    (l.map f).sum
      = ((l.filter p).map f).sum + ((l.filter (fun a => !(p a))).map f).sum := by
  induction l with
  | nil => simp
  | cons a t ih =>
    cases h : p a <;> simp only [List.filter_cons, h, Bool.not_true,
      Bool.not_false, if_true, if_false, List.map_cons, List.sum_cons,
      ite_true, ite_false, ih] <;> abel

theorem sum_fiber_nodup {α κ M : Type} [DecidableEq κ] [AddCommMonoid M]
    (key : α → κ) (f : α → M) :
    ∀ ks : List κ, ks.Nodup → ∀ l : List α, (∀ a ∈ l, key a ∈ ks) →
      (ks.map (fun k => ((l.filter (fun a => decide (key a = k))).map f).sum)).sum
        = (l.map f).sum := by
  intro ks
  induction ks with
  | nil =>
    intro _ l hl
    have hl0 : l = [] := by
      cases l with
      | nil => rfl
      | cons a t => exact absurd (hl a (List.mem_cons_self a t)) (List.not_mem_nil _)
    subst hl0; rfl
  | cons k ks ih =>
    intro hnd l hl
    rw [List.nodup_cons] at hnd
    have hl2 : ∀ a ∈ l.filter (fun a => !(decide (key a = k))), key a ∈ ks := by
      intro a ha
      have hmem := List.mem_filter.mp ha
      have h2 : ¬ key a = k := by simpa using hmem.2
      rcases List.mem_cons.mp (hl a hmem.1) with h3 | h3
      · exact absurd h3 h2
      · exact h3
    have hcong :
        ks.map (fun j => ((l.filter (fun a => decide (key a = j))).map f).sum)
          = ks.map (fun j =>
              (((l.filter (fun a => !(decide (key a = k)))).filter
                  (fun a => decide (key a = j))).map f).sum) := by
      apply map_congr_own
      intro j hj
      rw [filter_sub_filter (fun a => !(decide (key a = k)))
        (fun a => decide (key a = j)) l]
      intro a _ hqa
      have haj : key a = j := of_decide_eq_true hqa
      have hjk : j ≠ k := fun he => hnd.1 (he ▸ hj)
      have : ¬ key a = k := fun he => hjk (haj.symm.trans he)
      simpa using this
    simp only [List.map_cons, List.sum_cons]
    rw [hcong, ih hnd.2 (l.filter (fun a => !(decide (key a = k)))) hl2,
      sum_map_filter_split (fun a => decide (key a = k)) f l]

theorem sum_fiber_dedup {α κ M : Type} [DecidableEq κ] [AddCommMonoid M]
    (key : α → κ) (f : α → M) (l : List α) :
    (((l.map key).dedup).map
      (fun k => ((l.filter (fun a => decide (key a = k))).map f).sum)).sum
      = (l.map f).sum :=
  sum_fiber_nodup key f _ (List.nodup_dedup _) l
    (fun a ha => List.mem_dedup.mpr (List.mem_map_of_mem key ha))

theorem nodup_key_filter {α κ : Type} [DecidableEq κ] (key : α → κ)
    (l : List α) (h : (l.map key).Nodup) (v : κ) :
    l.filter (fun a => decide (key a = v)) = []
      ∨ ∃ x, l.filter (fun a => decide (key a = v)) = [x] ∧ key x = v := by
  induction l with
  | nil => exact Or.inl rfl
  | cons a t ih =>
    rw [List.map_cons, List.nodup_cons] at h
    by_cases hv : key a = v
    · right
      refine ⟨a, ?_, hv⟩
      have hnil : t.filter (fun x => decide (key x = v)) = [] := by
        apply filter_all_false
        intro x hx
        have : ¬ key x = v := by
          intro hxv
          exact h.1 (by rw [hv, ← hxv]; exact List.mem_map_of_mem key hx)
        simpa using this
      simp [List.filter_cons, hv, hnil]
    · rcases ih h.2 with h0 | ⟨x, hx, hkx⟩
      · left; simp [List.filter_cons, hv, h0]
      · right; exact ⟨x, by simp [List.filter_cons, hv, hx], hkx⟩

theorem nodup_mem_filter_eq {κ : Type} [DecidableEq κ] (l : List κ)
    (h : l.Nodup) (k : κ) (hk : k ∈ l) :
    l.filter (fun x => decide (x = k)) = [k] := by
  induction l with
  | nil => cases hk
  | cons a t ih =>
    rw [List.nodup_cons] at h
    rcases List.mem_cons.mp hk with rfl | hkt
    · have hnil : t.filter (fun x => decide (x = k)) = [] := by
        apply filter_all_false
        intro x hx
        have : ¬ x = k := fun he => h.1 (he ▸ hx)
        simpa using this
      simp [List.filter_cons, hnil]
    · have hak : ¬ a = k := fun he => h.1 (by rw [he]; exact hkt)
      have hak2 : decide (a = k) = false := by simpa using hak
      simp [List.filter_cons, hak2, ih h.2 hkt]

theorem filter_of_map {α β : Type} (f : α → β) (p : β → Bool) (l : List α) :
    (l.map f).filter p = (l.filter (fun a => p (f a))).map f := by
  induction l with
  | nil => rfl
  | cons a t ih => cases h : p (f a) <;> simp [List.filter_cons, h, ih]

theorem find?_exists {α : Type} (p : α → Bool) (l : List α)
    (h : ∃ a, a ∈ l ∧ p a = true) : ∃ b, l.find? p = some b := by
  induction l with
  | nil => rcases h with ⟨a, ha, _⟩; cases ha
  | cons a t ih =>
    cases hp : p a
    · rcases h with ⟨x, hx, hpx⟩
      rcases List.mem_cons.mp hx with rfl | hxt
      · rw [hp] at hpx; cases hpx
      · rw [List.find?_cons_of_neg _ (by simp [hp])]
        exact ih ⟨x, hxt, hpx⟩
    · exact ⟨a, List.find?_cons_of_pos _ hp⟩

theorem listMax_mem {α : Type} [LinearOrder α] (l : List α) (a : α)
    (h : listMax l = some a) : a ∈ l := by
  induction l generalizing a with
  | nil => cases h
  | cons x t ih =>
    cases ht : listMax t with
    | none =>
      rw [listMax, ht] at h
      have : x = a := by injection h
      exact this ▸ List.mem_cons_self x t
    | some b =>
      rw [listMax, ht] at h
      have hmb : max x b = a := by injection h
      rcases max_choice x b with hm | hm
      · exact (hm.symm.trans hmb) ▸ List.mem_cons_self x t
      · exact List.mem_cons_of_mem x ((hm.symm.trans hmb) ▸ ih b ht)

theorem listMax_ub {α : Type} [LinearOrder α] (l : List α) (a : α)
    (h : listMax l = some a) : ∀ x ∈ l, x ≤ a := by
  induction l generalizing a with
  | nil => intro x hx; cases hx
  | cons y t ih =>
    intro x hx
    cases ht : listMax t with
    | none =>
      have ht0 : t = [] := by
        cases t with
        | nil => rfl
        | cons z u =>
          cases hu : listMax u <;> rw [listMax, hu] at ht <;> cases ht
      subst ht0
      rw [listMax] at h
      have hya : y = a := by injection h
      rcases List.mem_cons.mp hx with rfl | hxt
      · exact le_of_eq hya
      · cases hxt
    | some b =>
      rw [listMax, ht] at h
      have hmb : max y b = a := by injection h
      rcases List.mem_cons.mp hx with rfl | hxt
      · exact le_trans (le_max_left x b) (le_of_eq hmb)
      · exact le_trans (le_trans (ih b ht x hxt) (le_max_right y b)) (le_of_eq hmb)

theorem listMax_isSome {α : Type} [LinearOrder α] (l : List α) (h : l ≠ []) :
    ∃ a, listMax l = some a := by
  cases l with
  | nil => exact absurd rfl h
  | cons x t =>
    cases ht : listMax t with
    | none => exact ⟨x, by rw [listMax, ht]⟩
    | some b => exact ⟨max x b, by rw [listMax, ht]⟩

theorem mem_insertSorted {α : Type} (le : α → α → Bool) (x a : α)
    (l : List α) : a ∈ insertSorted le x l ↔ a = x ∨ a ∈ l := by
  induction l with
  | nil => simp [insertSorted]
  | cons y t ih =>
    cases h : le x y <;> simp [insertSorted, h, ih] <;> tauto

theorem mem_sortByB {α : Type} (le : α → α → Bool) (a : α) (l : List α) :
    a ∈ sortByB le l ↔ a ∈ l := by
  induction l with
  | nil => simp [sortByB]
  | cons x t ih => simp [sortByB, mem_insertSorted, ih]

theorem appendDf_schema (t : Table) (df : DataFrame) (u : Table)
    (h : t.appendDf df = some u) : u.schema = t.schema := by
  unfold Table.appendDf at h
  by_cases hc : df.cols.all (fun c => decide (c ∈ t.schema)) = true
  · rw [if_pos hc] at h
    injection h with h2
    rw [← h2]
  · rw [if_neg hc] at h
    cases h

theorem parseMonths_length (cube out : List CubeRd)
    (h : parseMonths cube = some out) : out.length = cube.length := by
  induction cube generalizing out with
  | nil =>
    rw [parseMonths] at h
    injection h with h2
    rw [← h2]
  | cons r t ih =>
    cases hd : toDatetime r.month with
    | none => rw [parseMonths, hd] at h; cases h
    | some mv =>
      cases hr : parseMonths t with
      | none => rw [parseMonths, hd, hr] at h; cases h
      | some t2 =>
        rw [parseMonths, hd, hr] at h
        injection h with h2
        rw [← h2]
        simp [ih t2 hr]

theorem parseMonths_id (cube : List CubeRd)
    (h : ∀ r ∈ cube, ∃ i, r.month = MonthVal.parsed i) :
    parseMonths cube = some cube := by
  induction cube with
  | nil => rfl
  | cons r t ih =>
    obtain ⟨i, hi⟩ := h r (List.mem_cons_self r t)
    have ht := ih (fun x hx => h x (List.mem_cons_of_mem r hx))
    have hd : toDatetime r.month = some r.month := by rw [hi]; rfl
    rw [parseMonths, hd, ht]

/-! Evaluation equations for load_data_to_db. -/

theorem load_eq_inserts (init : DWState) (cdf pdf sdf : DataFrame) :
    load_data_to_db init
        { sqlFile := true, customersCsv := some cdf, productsCsv := some pdf,
          salesCsv := some sdf }
      = match insert_customers cdf (clearRows init.customers) with
        | none => (init, some ("Error during ETL process: customers insert failed"))
        | some tc =>
          match insert_products pdf (clearRows init.products) with
          | none =>
            ({ customers := tc, products := clearRows init.products,
               sales := clearRows init.sales },
             some ("Error during ETL process: products insert failed"))
          | some tp =>
            match insert_sales sdf (clearRows init.sales) with
            | none =>
              ({ customers := tc, products := tp,
                 sales := clearRows init.sales },
               some ("Error during ETL process: sales insert failed"))
            | some ts =>
              ({ customers := tc, products := tp, sales := ts }, none) := rfl

theorem clearRows_clearRows (t : Table) : clearRows (clearRows t) = clearRows t := rfl

/-- Claim C2 counterexample: on a warehouse holding a prior sales row,
a load whose sales insert fails (unknown extra column) does not roll the
warehouse back to its prior state: the new customers and products rows
stay committed and the prior sales rows stay deleted. -/
theorem load_not_atomic_counterexample :
    load_data_to_db initC2
        { sqlFile := true, customersCsv := some cdfOne,
          productsCsv := some pdfOne, salesCsv := some sdfExtra }
      = (c2FinalState, some ("Error during ETL process: sales insert failed"))
      ∧ c2FinalState ≠ initC2 := by
  refine ⟨by decide, by decide⟩

/-- Claim C2 (amended): the load is not atomic.  A failure before the
first insert commits (for instance a missing prepared csv) leaves the
warehouse in its prior state, but once the customers and products
inserts have committed, a failing sales insert leaves those inserts and
the deletes committed: the customers and products relations hold exactly
the new rows and the sales relation is empty, regardless of the prior
row contents. -/
theorem load_commit_boundaries :
    (∀ (init : DWState) (inp : EtlInputs), inp.salesCsv = none →
        (load_data_to_db init inp).1 = init)
      ∧ (∀ (c0 p0 s0 : List (List Cell)) (cdf pdf sdf : DataFrame) (tc tp : Table),
          insert_customers cdf { schema := customersSchema, rows := [] } = some tc →
          insert_products pdf { schema := productsSchema, rows := [] } = some tp →
          insert_sales sdf { schema := salesSchema, rows := [] } = none →
          load_data_to_db
              { customers := { schema := customersSchema, rows := c0 },
                products := { schema := productsSchema, rows := p0 },
                sales := { schema := salesSchema, rows := s0 } }
              { sqlFile := true, customersCsv := some cdf,
                productsCsv := some pdf, salesCsv := some sdf }
            = ({ customers := tc, products := tp,
                 sales := { schema := salesSchema, rows := [] } },
               some ("Error during ETL process: sales insert failed"))) := by
  constructor
  · intro init inp h
    rcases inp with ⟨sq, co, po, so⟩
    simp only at h
    subst h
    cases sq <;> cases co <;> cases po <;> rfl
  · intro c0 p0 s0 cdf pdf sdf tc tp h1 h2 h3
    rw [load_eq_inserts]
    simp only [clearRows]
    rw [h1, h2, h3]

/-- Claim C2 witness for the amended theorem, at the concrete inputs of
the counterexample. -/
theorem load_commit_boundaries_witness :
    insert_customers cdfOne { schema := customersSchema, rows := [] }
        = some { schema := customersSchema,
                 rows := [[Cell.intV 1, Cell.strV ("Bob"), Cell.strV ("South"),
                           Cell.dateV 2021 2 3, Cell.intV 90,
                           Cell.strV ("Phone")]] }
      ∧ insert_products pdfOne { schema := productsSchema, rows := [] }
          = some { schema := productsSchema,
                   rows := [[Cell.intV 1, Cell.strV ("Widget"),
                             Cell.strV ("Gadgets"), Cell.intV 10, Cell.intV 5,
                             Cell.strV ("Acme")]] }
      ∧ insert_sales sdfExtra { schema := salesSchema, rows := [] } = none
      ∧ load_data_to_db initC2
            { sqlFile := true, customersCsv := some cdfOne,
              productsCsv := some pdfOne, salesCsv := some sdfExtra }
          = (c2FinalState, some ("Error during ETL process: sales insert failed")) :=
  ⟨by decide, by decide, by decide,
   load_commit_boundaries.2 [] []
     [[Cell.intV 1, Cell.dateV 2024 1 1, Cell.intV 1, Cell.intV 1,
       Cell.intV 1, Cell.intV 1, Cell.intV 100, Cell.intV 0,
       Cell.strV ("Card")]]
     cdfOne pdfOne sdfExtra _ _ (by decide) (by decide) (by decide)⟩

/-- Claim C1 counterexample: the loader does not re-check the column
contract.  Loading a customers dataset that is missing the Region column
does not abort: the load succeeds with no error, and one row is written
to the customers relation (with NULL region). -/
theorem loader_no_contract_recheck_counterexample :
    load_data_to_db dwEmpty
        { sqlFile := true, customersCsv := some dfNoRegion,
          productsCsv := some pdfEmpty, salesCsv := some sdfEmpty }
      = (c1FinalState, none)
      ∧ c1FinalState.customers.rows.length = 1 := by
  refine ⟨by decide, rfl⟩

/-- Claim C1 (amended): the column/type contract (exact column-set
match, exact per-column dtype match, per-column diagnostics) is checked
by the data-preparation stage helper verify_columns, which rejects a
frame missing an expected column or with a wrongly typed column; the
loader itself performs no re-check: whenever the renamed frames fit the
warehouse schemas it inserts all their rows and reports no error. -/
theorem contract_check_location :
    (∀ (df : DataFrame) (exp : List (String × String)) (c t : String),
        (c, t) ∈ exp → ¬ c ∈ df.cols → verify_columns df exp = false)
      ∧ (∀ (df : DataFrame) (exp : List (String × String)) (c t : String),
          (c, t) ∈ exp → ¬ df.dtypeOf c = some t → verify_columns df exp = false)
      ∧ (∀ (c0 p0 s0 : List (List Cell)) (cdf pdf sdf : DataFrame)
          (tc tp ts : Table),
          insert_customers cdf { schema := customersSchema, rows := [] } = some tc →
          insert_products pdf { schema := productsSchema, rows := [] } = some tp →
          insert_sales sdf { schema := salesSchema, rows := [] } = some ts →
          load_data_to_db
              { customers := { schema := customersSchema, rows := c0 },
                products := { schema := productsSchema, rows := p0 },
                sales := { schema := salesSchema, rows := s0 } }
              { sqlFile := true, customersCsv := some cdf,
                productsCsv := some pdf, salesCsv := some sdf }
            = ({ customers := tc, products := tp, sales := ts }, none)) := by
  refine ⟨?_, ?_, ?_⟩
  · intro df exp c t hmem hnc
    unfold verify_columns
    have hall : (exp.map Prod.fst).all (fun c => decide (c ∈ df.cols)) = false := by
      cases hA : (exp.map Prod.fst).all (fun c => decide (c ∈ df.cols))
      · rfl
      · exfalso
        have h2 := List.all_eq_true.mp hA c (List.mem_map_of_mem Prod.fst hmem)
        exact hnc (of_decide_eq_true h2)
    rw [hall]
    simp
  · intro df exp c t hmem hdt
    unfold verify_columns
    by_cases hg : ((exp.map Prod.fst).all (fun c => decide (c ∈ df.cols)) &&
        df.cols.all (fun c => decide (c ∈ exp.map Prod.fst))) = true
    · rw [if_pos hg]
      cases hB : exp.all (fun p => decide (df.dtypeOf p.1 = some p.2))
      · rfl
      · exfalso
        exact hdt (of_decide_eq_true (List.all_eq_true.mp hB (c, t) hmem))
    · rw [if_neg hg]
  · intro c0 p0 s0 cdf pdf sdf tc tp ts h1 h2 h3
    rw [load_eq_inserts]
    simp only [clearRows]
    rw [h1, h2, h3]

/-- Claim C1 witness for the amended theorem: verify_columns rejects the
customers frame missing Region, and the loader inserts well-formed
frames without any check. -/
theorem contract_check_location_witness :
    (("Region", "object") ∈ customersExpected
      ∧ ¬ ("Region" : String) ∈ dfNoRegion.cols
      ∧ verify_columns dfNoRegion customersExpected = false)
      ∧ load_data_to_db dwEmpty
            { sqlFile := true, customersCsv := some cdfOne,
              productsCsv := some pdfOne, salesCsv := some sdfEmpty }
          = (c2FinalState, none) :=
  ⟨⟨by decide, by decide,
    contract_check_location.1 dfNoRegion customersExpected
      ("Region") ("object") (by decide) (by decide)⟩,
   contract_check_location.2.2 [] [] [] cdfOne pdfOne sdfEmpty _ _ _
     (by decide) (by decide) (by decide)⟩

/-- Claim C9 counterexample: an empty fact table is not fatal at
cube-build time.  On a warehouse with dimension rows and no sales rows,
create_sales_cube succeeds and returns an empty cube, with no
diagnostic. -/
theorem empty_fact_table_not_fatal :
    stEmptyFacts.sales = []
      ∧ create_sales_cube (some stEmptyFacts) = Except.ok [] :=
  ⟨rfl, rfl⟩

/-- Claim C9 (amended): a missing database file is surfaced by the cube
builder with a descriptive diagnostic, a missing prepared input makes
the loader print a diagnostic and leave the warehouse untouched, and an
unresolved fact reference is silently filtered by the join; but an empty
fact table is not detected: the cube builder succeeds and emits an empty
cube rather than a fatal diagnostic. -/
theorem failure_diagnostics :
    create_sales_cube none
        = Except.error ("Database file not found at data/dw/smart_sales.db")
      ∧ (∀ st : TypedState, st.sales = [] →
          create_sales_cube (some st) = Except.ok [])
      ∧ (∀ (init : DWState) (inp : EtlInputs), inp.customersCsv = none →
          (load_data_to_db init inp).2.isSome = true
            ∧ (load_data_to_db init inp).1 = init) := by
  refine ⟨rfl, ?_, ?_⟩
  · intro st h
    simp [create_sales_cube, cubeQuery, joinedRows, fiber, h]
  · intro init inp h
    rcases inp with ⟨sq, co, po, so⟩
    simp only at h
    subst h
    cases sq <;> cases po <;> cases so <;> exact ⟨rfl, rfl⟩

/-- Claim C9 witness for the amended theorem. -/
theorem failure_diagnostics_witness :
    (stSmall.sales.length = 2 ∧ stEmptyFacts.sales = []
        ∧ create_sales_cube (some stEmptyFacts) = Except.ok [])
      ∧ ((load_data_to_db dwEmpty
            { sqlFile := true, customersCsv := none,
              productsCsv := some pdfEmpty, salesCsv := some sdfEmpty }).2.isSome = true
          ∧ (load_data_to_db dwEmpty
              { sqlFile := true, customersCsv := none,
                productsCsv := some pdfEmpty, salesCsv := some sdfEmpty }).1 = dwEmpty) :=
  ⟨⟨rfl, rfl, failure_diagnostics.2.1 stEmptyFacts rfl⟩,
   failure_diagnostics.2.2 dwEmpty _ rfl⟩

/-- Claim C7: idempotent reload.  Running load_data_to_db a second time
with the same inputs leaves the warehouse state unchanged, hence
identical row counts per relation and an identical cube built from the
warehouse. -/
theorem idempotent_reload (init : DWState) (inp : EtlInputs) :
    (load_data_to_db (load_data_to_db init inp).1 inp).1
        = (load_data_to_db init inp).1
      ∧ rowCounts (load_data_to_db (load_data_to_db init inp).1 inp).1
          = rowCounts (load_data_to_db init inp).1
      ∧ cubeQuery (interpState (load_data_to_db (load_data_to_db init inp).1 inp).1)
          = cubeQuery (interpState (load_data_to_db init inp).1) := by
  have main : (load_data_to_db (load_data_to_db init inp).1 inp).1
      = (load_data_to_db init inp).1 := by
    rcases inp with ⟨sq, co, po, so⟩
    cases sq
    · rfl
    · cases co with
      | none => rfl
      | some cdf =>
        cases po with
        | none => rfl
        | some pdf =>
          cases so with
          | none => rfl
          | some sdf =>
            cases h1 : insert_customers cdf (clearRows init.customers) with
            | none =>
              have e1 : load_data_to_db init
                  { sqlFile := true, customersCsv := some cdf,
                    productsCsv := some pdf, salesCsv := some sdf }
                  = (init, some ("Error during ETL process: customers insert failed")) := by
                rw [load_eq_inserts, h1]
              simp [e1, load_eq_inserts, h1]
            | some tc =>
              have hcc : clearRows tc = clearRows init.customers := by
                unfold clearRows
                rw [appendDf_schema _ _ _ h1]
                rfl
              cases h2 : insert_products pdf (clearRows init.products) with
              | none =>
                have e1 : load_data_to_db init
                    { sqlFile := true, customersCsv := some cdf,
                      productsCsv := some pdf, salesCsv := some sdf }
                    = ({ customers := tc, products := clearRows init.products,
                         sales := clearRows init.sales },
                       some ("Error during ETL process: products insert failed")) := by
                  rw [load_eq_inserts, h1, h2]
                simp [e1, load_eq_inserts, hcc, clearRows_clearRows, h1, h2]
              | some tp =>
                have hpp : clearRows tp = clearRows init.products := by
                  unfold clearRows
                  rw [appendDf_schema _ _ _ h2]
                  rfl
                cases h3 : insert_sales sdf (clearRows init.sales) with
                | none =>
                  have e1 : load_data_to_db init
                      { sqlFile := true, customersCsv := some cdf,
                        productsCsv := some pdf, salesCsv := some sdf }
                      = ({ customers := tc, products := tp,
                           sales := clearRows init.sales },
                         some ("Error during ETL process: sales insert failed")) := by
                    rw [load_eq_inserts, h1, h2, h3]
                  simp [e1, load_eq_inserts, hcc, hpp, clearRows_clearRows, h1, h2, h3]
                | some ts =>
                  have hss : clearRows ts = clearRows init.sales := by
                    unfold clearRows
                    rw [appendDf_schema _ _ _ h3]
                    rfl
                  have e1 : load_data_to_db init
                      { sqlFile := true, customersCsv := some cdf,
                        productsCsv := some pdf, salesCsv := some sdf }
                      = ({ customers := tc, products := tp, sales := ts }, none) := by
                    rw [load_eq_inserts, h1, h2, h3]
                  simp [e1, load_eq_inserts, hcc, hpp, hss, h1, h2, h3]
  exact ⟨main, by rw [main], by rw [main]⟩

/-! Aggregation lemmas for the cube query. -/

theorem filter_congr_own {α : Type} (p q : α → Bool) (l : List α)
    (h : ∀ a ∈ l, p a = q a) : l.filter p = l.filter q := by
  induction l with
  | nil => rfl
  | cons a t ih =>
    have ha := h a (List.mem_cons_self a t)
    have ih2 := ih (fun x hx => h x (List.mem_cons_of_mem a hx))
    rw [List.filter_cons, List.filter_cons, ha, ih2]

theorem any_eq_false_of_filter_nil {α : Type} (p : α → Bool) (l : List α)
    (h : l.filter p = []) : l.any p = false := by
  cases hany : l.any p
  · rfl
  · exfalso
    rcases List.any_eq_true.mp hany with ⟨x, hx, hpx⟩
    have hmem : x ∈ l.filter p := List.mem_filter.mpr ⟨hx, hpx⟩
    rw [h] at hmem
    cases hmem

theorem any_eq_true_of_filter_singleton {α : Type} (p : α → Bool) (l : List α)
    (x : α) (h : l.filter p = [x]) : l.any p = true := by
  have hx : x ∈ l.filter p := by rw [h]; exact List.mem_cons_self x []
  have hm := List.mem_filter.mp hx
  exact List.any_eq_true.mpr ⟨x, hm.1, hm.2⟩

theorem salesJoin_eval (st : TypedState) (s : SaleR)
    (hc : (st.customers.map (fun c => c.customer_id)).Nodup)
    (hp : (st.products.map (fun p => p.product_id)).Nodup) :
    ((salesJoin st s).map JRow.sale_amount).sum
        = (if (hasCust st s && hasProd st s) = true then s.sale_amount else 0)
      ∧ (salesJoin st s).length
        = (if (hasCust st s && hasProd st s) = true then 1 else 0) := by
  rcases nodup_key_filter (fun c => c.customer_id) st.customers hc s.customer_id
    with hcf | ⟨c0, hcf, _⟩
  · have hcu : hasCust st s = false := any_eq_false_of_filter_nil _ _ hcf
    constructor <;> (unfold salesJoin; rw [hcf, hcu]; simp)
  · have hcu : hasCust st s = true := any_eq_true_of_filter_singleton _ _ c0 hcf
    rcases nodup_key_filter (fun p => p.product_id) st.products hp s.product_id
      with hpf | ⟨p0, hpf, _⟩
    · have hpu : hasProd st s = false := any_eq_false_of_filter_nil _ _ hpf
      constructor <;> (unfold salesJoin; rw [hcf, hpf, hcu, hpu]; simp)
    · have hpu : hasProd st s = true := any_eq_true_of_filter_singleton _ _ p0 hpf
      constructor <;> (unfold salesJoin; rw [hcf, hpf, hcu, hpu]; simp)

theorem joined_amount_eq_matched (st : TypedState)
    (hc : (st.customers.map (fun c => c.customer_id)).Nodup)
    (hp : (st.products.map (fun p => p.product_id)).Nodup) :
    ((joinedRows st).map JRow.sale_amount).sum
      = ((matchedSales st).map SaleR.sale_amount).sum := by
  unfold joinedRows matchedSales
  rw [sum_map_flatten, sum_map_filterB,
    map_congr_own _ _ st.sales (fun s _ => (salesJoin_eval st s hc hp).1)]

theorem joined_length_eq_matched (st : TypedState)
    (hc : (st.customers.map (fun c => c.customer_id)).Nodup)
    (hp : (st.products.map (fun p => p.product_id)).Nodup) :
    (joinedRows st).length = (matchedSales st).length := by
  unfold joinedRows matchedSales
  rw [length_flatten_map, length_filterB,
    map_congr_own _ _ st.sales (fun s _ => (salesJoin_eval st s hc hp).2)]

theorem cube_totals_eq_joined (st : TypedState) :
    ((cubeQuery st).map CubeOut.total_sales).sum
      = ((joinedRows st).map JRow.sale_amount).sum := by
  unfold cubeQuery fiber
  rw [List.map_map]
  exact sum_fiber_dedup jkey JRow.sale_amount (joinedRows st)

theorem cube_counts_eq_joined (st : TypedState) :
    ((cubeQuery st).map CubeOut.transaction_count).sum
      = (joinedRows st).length := by
  unfold cubeQuery fiber
  rw [List.map_map]
  rw [← sum_map_ones (joinedRows st),
    ← sum_fiber_dedup jkey (fun _ => (1 : ℕ)) (joinedRows st)]
  refine congrArg List.sum (map_congr_own _ _ _ ?_)
  intro k _
  exact (sum_map_ones _).symm

/-- Claim C3: aggregation conservation.  Under the identity-key
uniqueness invariant of the dimension relations (their declared primary
keys), the cube total_sales values sum to the sum of sale_amount over
exactly the fact rows that join to both a matching customer and a
matching product row, and the transaction_count values sum to the number
of such fact rows; fact rows with no match contribute nothing and raise
no error. -/
theorem cube_aggregation_conservation (st : TypedState)
    (hc : (st.customers.map (fun c => c.customer_id)).Nodup)
    (hp : (st.products.map (fun p => p.product_id)).Nodup) :
    ((cubeQuery st).map CubeOut.total_sales).sum
        = ((matchedSales st).map SaleR.sale_amount).sum
      ∧ ((cubeQuery st).map CubeOut.transaction_count).sum
        = (matchedSales st).length :=
  ⟨(cube_totals_eq_joined st).trans (joined_amount_eq_matched st hc hp),
   (cube_counts_eq_joined st).trans (joined_length_eq_matched st hc hp)⟩

/-- Claim C3 witness: the conservation equations at a concrete warehouse
with one joining fact row and one dangling fact row. -/
theorem cube_aggregation_conservation_witness :
    (stSmall.customers.map (fun c => c.customer_id)).Nodup
      ∧ (stSmall.products.map (fun p => p.product_id)).Nodup
      ∧ (((cubeQuery stSmall).map CubeOut.total_sales).sum
            = ((matchedSales stSmall).map SaleR.sale_amount).sum
          ∧ ((cubeQuery stSmall).map CubeOut.transaction_count).sum
            = (matchedSales stSmall).length) :=
  ⟨by decide, by decide,
   cube_aggregation_conservation stSmall (by decide) (by decide)⟩

/-- Claim C4: cube uniqueness.  No two cube rows share the same
dimension tuple, and every tuple occurring in the joined data yields
exactly one cube row. -/
theorem cube_key_uniqueness (st : TypedState) :
    ((cubeQuery st).map cubeKey).Nodup
      ∧ ∀ k, k ∈ (joinedRows st).map jkey →
          ((cubeQuery st).filter (fun r => decide (cubeKey r = k))).length = 1 := by
  constructor
  · unfold cubeQuery fiber
    rw [List.map_map]
    have h1 : (((joinedRows st).map jkey).dedup).map
        (cubeKey ∘ (fun k =>
          { month := k.1, region := k.2.1, product_category := k.2.2.1,
            payment_type := k.2.2.2,
            total_sales := (((joinedRows st).filter
              (fun a => decide (jkey a = k))).map JRow.sale_amount).sum,
            transaction_count := ((joinedRows st).filter
              (fun a => decide (jkey a = k))).length : CubeOut }))
        = ((joinedRows st).map jkey).dedup := by
      rw [map_congr_own _ (fun k => k) _ (by rintro ⟨a, b, c, d⟩ _; rfl)]
      exact List.map_id _
    rw [h1]
    exact List.nodup_dedup _
  · intro k hk
    unfold cubeQuery fiber
    rw [filter_of_map, List.length_map]
    have hcong := filter_congr_own
      (fun a => decide (cubeKey
        ({ month := a.1, region := a.2.1, product_category := a.2.2.1,
           payment_type := a.2.2.2,
           total_sales := (((joinedRows st).filter
             (fun x => decide (jkey x = a))).map JRow.sale_amount).sum,
           transaction_count := ((joinedRows st).filter
             (fun x => decide (jkey x = a))).length : CubeOut }) = k))
      (fun a => decide (a = k))
      (((joinedRows st).map jkey).dedup)
      (fun a _ => rfl)
    rw [hcong, nodup_mem_filter_eq _ (List.nodup_dedup _) k (List.mem_dedup.mpr hk)]
    rfl

/-- Claim C4 witness: the dimension tuple of the joining fact row of the
small warehouse yields exactly one cube row. -/
theorem cube_key_uniqueness_witness :
    ((24292 : Int), "North", "Gadgets", "Card") ∈ (joinedRows stSmall).map jkey
      ∧ ((cubeQuery stSmall).filter
          (fun r => decide (cubeKey r
            = ((24292 : Int), "North", "Gadgets", "Card")))).length = 1 :=
  ⟨by decide, (cube_key_uniqueness stSmall).2 _ (by decide)⟩

/-! Rollup layer lemmas and claims. -/

theorem filter_last_year_eq (cube mtd res : List CubeRd)
    (h : filter_last_year_data cube = Except.ok (mtd, res)) :
    parseMonths cube = some mtd
      ∧ res = mtd.filter
          (fun r => decide (latestMonth mtd - 12 < monthIdx r.month)) := by
  unfold filter_last_year_data at h
  split at h
  · cases h
  · rename_i cube2 heq
    injection h with h2
    rw [Prod.mk.injEq] at h2
    obtain ⟨hm, hr⟩ := h2
    subst hm
    subst hr
    exact ⟨heq, rfl⟩

/-- Claim C5: recency filter boundary.  The filter returns exactly the
rows of the (month-parsed) frame whose month is strictly after the
latest month minus 12 months, the boundary month itself is excluded, and
on the concrete frame with months 2023-01 through 2024-06 it retains
exactly 2023-07 through 2024-06. -/
theorem recency_filter_boundary (cube mtd res : List CubeRd)
    (h : filter_last_year_data cube = Except.ok (mtd, res)) :
    res = mtd.filter
        (fun r => decide (latestMonth mtd - 12 < monthIdx r.month))
      ∧ (∀ r ∈ mtd, monthIdx r.month = latestMonth mtd - 12 → ¬ r ∈ res)
      ∧ filter_last_year_data exCubeYear
          = Except.ok (exCubeYearP, exCubeYearKept) := by
  obtain ⟨hp, hres⟩ := filter_last_year_eq cube mtd res h
  refine ⟨hres, ?_, by decide⟩
  intro r hrm heq hrres
  rw [hres] at hrres
  have h2 := of_decide_eq_true (List.mem_filter.mp hrres).2
  rw [heq] at h2
  exact lt_irrefl _ h2

/-- Claim C5 witness at the concrete 18-month frame. -/
theorem recency_filter_boundary_witness :
    filter_last_year_data exCubeYear = Except.ok (exCubeYearP, exCubeYearKept)
      ∧ (exCubeYearKept = exCubeYearP.filter
            (fun r => decide (latestMonth exCubeYearP - 12 < monthIdx r.month))
          ∧ (∀ r ∈ exCubeYearP,
              monthIdx r.month = latestMonth exCubeYearP - 12
                → ¬ r ∈ exCubeYearKept)
          ∧ filter_last_year_data exCubeYear
              = Except.ok (exCubeYearP, exCubeYearKept)) :=
  ⟨by decide,
   recency_filter_boundary exCubeYear exCubeYearP exCubeYearKept (by decide)⟩

/-- Claim C10: on a nonempty frame whose months all parse, the recency
filter returns a nonempty result containing every row whose month equals
the latest month present. -/
theorem recency_filter_nonempty (cube mtd res : List CubeRd)
    (hne : cube ≠ [])
    (h : filter_last_year_data cube = Except.ok (mtd, res)) :
    res ≠ [] ∧ ∀ r ∈ mtd, monthIdx r.month = latestMonth mtd → r ∈ res := by
  obtain ⟨hp, hres⟩ := filter_last_year_eq cube mtd res h
  have hmutne : mtd ≠ [] := by
    intro h0
    apply hne
    have hlen := parseMonths_length cube mtd hp
    rw [h0] at hlen
    cases cube with
    | nil => rfl
    | cons a t => simp at hlen
  have hmapne : mtd.map (fun r => monthIdx r.month) ≠ [] := by
    intro h0
    exact hmutne (List.map_eq_nil_iff.mp h0)
  obtain ⟨a, ha⟩ := listMax_isSome _ hmapne
  have hlatest : latestMonth mtd = a := by
    unfold latestMonth
    rw [ha]
    rfl
  obtain ⟨r0, hr0, hr0a⟩ := List.mem_map.mp (listMax_mem _ a ha)
  constructor
  · intro h0
    have hr0res : r0 ∈ res := by
      rw [hres]
      refine List.mem_filter.mpr ⟨hr0, decide_eq_true ?_⟩
      rw [hr0a, hlatest]
      omega
    rw [h0] at hr0res
    cases hr0res
  · intro r hrm heq
    rw [hres]
    refine List.mem_filter.mpr ⟨hrm, decide_eq_true ?_⟩
    rw [heq]
    omega

/-- Claim C10 witness at a concrete two-month frame. -/
theorem recency_filter_nonempty_witness :
    exCubeTwo ≠ []
      ∧ filter_last_year_data exCubeTwo = Except.ok (exCubeTwoP, exCubeTwoP)
      ∧ (exCubeTwoP ≠ []
          ∧ ∀ r ∈ exCubeTwoP,
              monthIdx r.month = latestMonth exCubeTwoP → r ∈ exCubeTwoP) :=
  ⟨by decide, by decide,
   recency_filter_nonempty exCubeTwo exCubeTwoP exCubeTwoP (by decide) (by decide)⟩

/-- Claim C8 counterexample: filter_last_year_data mutates its input.
On a frame whose month column holds the raw string 2024-06, the post-call
state of the input frame differs from the frame passed in (the month
column was converted to datetime in place). -/
theorem rollup_input_mutation_counterexample :
    filter_last_year_data exRawOne = Except.ok (exParsedOne, exParsedOne)
      ∧ exParsedOne ≠ exRawOne :=
  ⟨by decide, by decide⟩

/-- Claim C8 (amended): the groupby aggregations are pure functions of
the frame, but filter_last_year_data (and add_year_column) write the
month (and year) column of the input frame in place.  An input whose
month column is already datetime is left unchanged by the recency
filter; an input with raw string months is mutated, as the
counterexample shows. -/
theorem rollup_frame_effects :
    ∀ cube : List CubeRd, (∀ r ∈ cube, ∃ i, r.month = MonthVal.parsed i) →
      ∃ res, filter_last_year_data cube = Except.ok (cube, res) := by
  intro cube h
  refine ⟨cube.filter
    (fun r => decide (latestMonth cube - 12 < monthIdx r.month)), ?_⟩
  unfold filter_last_year_data
  rw [parseMonths_id cube h]

/-- Claim C8 witness for the amended theorem: a frame already in
datetime form passes through the recency filter unchanged. -/
theorem rollup_frame_effects_witness :
    (∀ r ∈ exCubeTwoP, ∃ i, r.month = MonthVal.parsed i)
      ∧ ∃ res, filter_last_year_data exCubeTwoP
          = Except.ok (exCubeTwoP, res) := by
  have h : ∀ r ∈ exCubeTwoP, ∃ i, r.month = MonthVal.parsed i := by
    intro r hr
    rcases List.mem_cons.mp hr with rfl | hr2
    · exact ⟨toIdx 2024 5, rfl⟩
    · rcases List.mem_cons.mp hr2 with rfl | hr3
      · exact ⟨toIdx 2024 6, rfl⟩
      · cases hr3
  exact ⟨h, rollup_frame_effects exCubeTwoP h⟩

theorem find?_some_own {α : Type} (p : α → Bool) (l : List α) (b : α)
    (h : l.find? p = some b) : p b = true ∧ b ∈ l := by
  induction l with
  | nil => cases h
  | cons a t ih =>
    cases hp : p a
    · rw [List.find?_cons_of_neg _ (by simp [hp])] at h
      obtain ⟨h1, h2⟩ := ih h
      exact ⟨h1, List.mem_cons_of_mem a h2⟩
    · rw [List.find?_cons_of_pos _ hp] at h
      injection h with h2
      subst h2
      exact ⟨hp, List.mem_cons_self a t⟩

theorem topPick_key (grouped : List ((String × String) × ℚ)) (rg : String)
    (y : String × String × ℚ) (h : topPick grouped rg = some y) : y.1 = rg := by
  unfold topPick at h
  cases hf : (regionGroup grouped rg).find? (fun e =>
      decide (e.2 = (listMax ((regionGroup grouped rg).map
        (fun e => e.2))).getD 0)) with
  | none => rw [hf] at h; cases h
  | some x =>
    rw [hf] at h
    injection h with h2
    have hx := (find?_some_own _ _ _ hf).2
    have hx3 := of_decide_eq_true (List.mem_filter.mp hx).2
    rw [← h2]
    exact hx3

theorem groupPairs_exTopRows :
    groupPairs exTopRows
      = [(("RegionA", "Cat1"), (100 : ℚ)), (("RegionA", "Cat2"), (150 : ℚ)),
         (("RegionB", "Cat1"), (80 : ℚ))] := by
  have hkeys : sortByB pairLeB ((exTopRows.map pairKey).dedup)
      = [("RegionA", "Cat1"), ("RegionA", "Cat2"), ("RegionB", "Cat1")] := by
    decide
  unfold groupPairs
  rw [hkeys]
  simp [exTopRows, mkTopRow, pairKey, List.filter_cons]

theorem filterMap_key_count {α β : Type} [DecidableEq α] (key : β → α)
    (f : α → Option β) (hkey : ∀ k y, f k = some y → key y = k) :
    ∀ ks : List α, ks.Nodup → ∀ rg, rg ∈ ks → ∀ y0, f rg = some y0 →
      ((ks.filterMap f).filter (fun y => decide (key y = rg))).length = 1 := by
  intro ks
  induction ks with
  | nil => intro _ rg h; cases h
  | cons k t ih =>
    intro hnd rg hrg y0 hy0
    rw [List.nodup_cons] at hnd
    rcases List.mem_cons.mp hrg with rfl | hrgt
    · rw [List.filterMap_cons, hy0]
      have hrest : (t.filterMap f).filter (fun y => decide (key y = rg)) = [] := by
        apply filter_all_false
        intro y hy
        obtain ⟨j, hjt, hjy⟩ := List.mem_filterMap.mp hy
        have hyj : key y = j := hkey j y hjy
        have hne : ¬ key y = rg := by
          rw [hyj]
          intro he
          exact hnd.1 (he ▸ hjt)
        simpa using hne
      have hk0 : key y0 = rg := hkey rg y0 hy0
      simp [List.filter_cons, hk0, hrest]
    · rw [List.filterMap_cons]
      cases hfk : f k with
      | none => exact ih hnd.2 rg hrgt y0 hy0
      | some y =>
        have hky : key y = k := hkey k y hfk
        have hne : decide (key y = rg) = false := by
          have : ¬ key y = rg := by
            rw [hky]
            intro he
            exact hnd.1 (by rw [he]; exact hrgt)
          simpa using this
        rw [List.filter_cons, hne]
        simp only [Bool.false_eq_true, if_false]
        exact ih hnd.2 rg hrgt y0 hy0

/-- Claim C6: top category per region.  For every region occurring in
the (region, category) grouping of the input rows, the result holds
exactly one row for that region; that row is one of the grouped rows and
its summed total is maximal among the grouped rows of the region (the
first such row in grouped order, per idxmax).  On the concrete example
rows the result is RegionA with Cat2 at 150 and RegionB with Cat1
at 80. -/
theorem top_category_per_region :
    (∀ (rows : List CubeRd) (rg : String),
        rg ∈ (groupPairs rows).map (fun e => e.1.1) →
        ∃ cat tot,
          (rg, cat, tot) ∈ get_top_categories_by_region rows
            ∧ ((rg, cat), tot) ∈ groupPairs rows
            ∧ (∀ e ∈ groupPairs rows, e.1.1 = rg → e.2 ≤ tot)
            ∧ ((get_top_categories_by_region rows).filter
                (fun y => decide (y.1 = rg))).length = 1)
      ∧ get_top_categories_by_region exTopRows
          = [("RegionA", "Cat2", (150 : ℚ)), ("RegionB", "Cat1", (80 : ℚ))] := by
  constructor
  · intro rows rg hrg
    have hrg2 : rg ∈ ((groupPairs rows).map (fun e => e.1.1)).dedup :=
      List.mem_dedup.mpr hrg
    obtain ⟨e0, he0g, he0rg⟩ := List.mem_map.mp hrg
    have he0mem : e0 ∈ regionGroup (groupPairs rows) rg :=
      List.mem_filter.mpr ⟨he0g, decide_eq_true he0rg⟩
    have hgne : regionGroup (groupPairs rows) rg ≠ [] :=
      List.ne_nil_of_mem he0mem
    have hmapne : (regionGroup (groupPairs rows) rg).map (fun e => e.2) ≠ [] := by
      intro h0
      exact hgne (List.map_eq_nil_iff.mp h0)
    obtain ⟨m, hm⟩ := listMax_isSome _ hmapne
    have hgetD : (listMax ((regionGroup (groupPairs rows) rg).map
        (fun e => e.2))).getD 0 = m := by rw [hm]; rfl
    obtain ⟨x1, hx1mem, hx1m⟩ := List.mem_map.mp (listMax_mem _ m hm)
    obtain ⟨x0, hfind⟩ := find?_exists
      (fun e => decide (e.2 = (listMax ((regionGroup (groupPairs rows) rg).map
        (fun e => e.2))).getD 0))
      (regionGroup (groupPairs rows) rg)
      ⟨x1, hx1mem, by rw [hgetD]; exact decide_eq_true hx1m⟩
    have hx0m : x0.2 = m := by
      have h2 := of_decide_eq_true (find?_some_own _ _ _ hfind).1
      rwa [hgetD] at h2
    have hx0mem := (find?_some_own _ _ _ hfind).2
    have hx0g := (List.mem_filter.mp hx0mem).1
    have hx0rg : x0.1.1 = rg := of_decide_eq_true (List.mem_filter.mp hx0mem).2
    have hpick : topPick (groupPairs rows) rg = some (x0.1.1, x0.1.2, x0.2) := by
      unfold topPick
      rw [hfind]
      rfl
    refine ⟨x0.1.2, x0.2, ?_, ?_, ?_, ?_⟩
    · unfold get_top_categories_by_region
      exact List.mem_filterMap.mpr ⟨rg, hrg2, by rw [hpick, hx0rg]⟩
    · have hx0eta : ((rg, x0.1.2), x0.2) = x0 := by rw [← hx0rg]
      rw [hx0eta]
      exact hx0g
    · intro e heg herg
      have hemem : e ∈ regionGroup (groupPairs rows) rg :=
        List.mem_filter.mpr ⟨heg, decide_eq_true herg⟩
      have := listMax_ub _ m hm e.2 (List.mem_map_of_mem _ hemem)
      rw [hx0m]
      exact this
    · unfold get_top_categories_by_region
      exact filterMap_key_count (fun y => y.1) (topPick (groupPairs rows))
        (fun k y h => topPick_key (groupPairs rows) k y h)
        (((groupPairs rows).map (fun e => e.1.1)).dedup)
        (List.nodup_dedup _) rg hrg2 _ hpick
  · unfold get_top_categories_by_region
    rw [groupPairs_exTopRows]
    decide

/-- Claim C6 witness, applying the general statement at the example rows
and RegionA. -/
theorem top_category_per_region_witness :
    ("RegionA" : String) ∈ (groupPairs exTopRows).map (fun e => e.1.1)
      ∧ ∃ cat tot,
          ("RegionA", cat, tot) ∈ get_top_categories_by_region exTopRows
            ∧ (("RegionA", cat), tot) ∈ groupPairs exTopRows
            ∧ (∀ e ∈ groupPairs exTopRows, e.1.1 = "RegionA" → e.2 ≤ tot)
            ∧ ((get_top_categories_by_region exTopRows).filter
                (fun y => decide (y.1 = "RegionA"))).length = 1 := by
  have hmem : ("RegionA" : String) ∈ (groupPairs exTopRows).map (fun e => e.1.1) := by
    rw [groupPairs_exTopRows]
    decide
  exact ⟨hmem, top_category_per_region.1 exTopRows ("RegionA") hmem⟩

end SmartStore
